import Mathlib

/-!
Verification of the laser-dashboard ablation engine.

A shallow embedding, over the real numbers, of the pure calculation
functions of the repository:

* `calculate_interactive_simulation` in
  `modules/beam_profile_visualizer.py` (the forward ablation model),
* `calculate_goal_seeker_recipe` in the same file (the inverse recipe
  solver),
* the dose/power computation chain of `modules/dose_target_seeker.py`,
* `calculate_tradeoffs` in `modules/sensitivity_analyzer.py`.

Machine floating-point arithmetic is modelled by exact real arithmetic;
`numpy` arrays indexed over a `linspace` grid are modelled as functions
from the sample index.  Division follows Lean's total-division
convention (`x / 0 = 0`).  The source guards most zero denominators
behind positivity checks; the one unguarded float division — the
Gaussian exponent `-2 r^2 / w0^2` of line 21, which IEEE arithmetic
turns into NaN at a zero beam waist (where every sampled radius is 0,
so the division is `0/0`) — is not absorbed silently: the zero-beam
theorem below states only the guarded outputs and records that the
exponent's division is `0/0` there.
-/

open Real Classical

noncomputable section

namespace LaserDashboard

/-- Modelled from the spec: the unit-conversion module `utils` (spec
section 2, item 1: micrometre to centimetre) is imported by every source
module but is not under `src/`.  One micrometre is `1/10000` cm. -/
def UM_TO_CM : ℝ := 1 / 10000

/-- Modelled from the spec: the unit-conversion module `utils` (spec
section 2, item 1: microjoule to joule) is not under `src/`.  One
microjoule is `1/1000000` J. -/
def UJ_TO_J : ℝ := 1 / 1000000

/-- The `beam_profile` selector of `calculate_interactive_simulation`
(the string `"Gaussian"` against the top-hat branch). -/
inductive BeamProfile
  | Gaussian
  | TopHat
deriving DecidableEq

/-- The parameter dictionary `p` passed to
`calculate_interactive_simulation` (beam_profile_visualizer.py). -/
structure SimParams where
  beam_profile : BeamProfile
  beam_diameter_um : ℝ
  pulse_energy_uJ : ℝ
  ablation_threshold_j_cm2 : ℝ
  alpha_inv : ℝ
  number_of_shots : ℕ
  material_thickness : ℝ

/-- `w0_um = p["beam_diameter_um"] / 2` (line 15). -/
def w0_um (p : SimParams) : ℝ := p.beam_diameter_um / 2

/-- `pulse_energy_j = p["pulse_energy_uJ"] * UJ_TO_J` (line 16). -/
def pulse_energy_j (p : SimParams) : ℝ := p.pulse_energy_uJ * UJ_TO_J

/-- The index set of the radial grid:
`np.linspace(-d*1.5, d*1.5, 501)` has 501 samples (line 17). -/
def gridIdx : Finset ℕ := Finset.range 501

/-- Sample `i` of `r_um = np.linspace(-d*1.5, d*1.5, 501)` (line 17):
`linspace(a, b, n)` places sample `i` at `a + i*(b-a)/(n-1)`. -/
def r_um (p : SimParams) (i : ℕ) : ℝ :=
  -(p.beam_diameter_um * 1.5) +
    (i : ℝ) * (p.beam_diameter_um * 1.5 - -(p.beam_diameter_um * 1.5)) / 500

/-- `peak_fluence_j_cm2` (lines 19-23): Gaussian branch
`(2*E)/(pi*(w0_cm)^2)`, top-hat branch `E/(pi*(w0_cm)^2)`, each guarded
by `if w0_um > 0 else 0`. -/
def peak_fluence_j_cm2 (p : SimParams) : ℝ :=
  match p.beam_profile with
  | BeamProfile.Gaussian =>
      if w0_um p > 0 then
        (2 * pulse_energy_j p) / (π * (w0_um p * UM_TO_CM) ^ 2)
      else 0
  | BeamProfile.TopHat =>
      if w0_um p > 0 then
        pulse_energy_j p / (π * (w0_um p * UM_TO_CM) ^ 2)
      else 0

/-- `fluence_profile` at radius `r` (lines 21 and 24): Gaussian
`F0 * exp(-2 r^2 / w0^2)`; top-hat `F0` inside `|r| <= w0`, else `0`.
The Gaussian division is unguarded in the source: at `w0 = 0` with
`r = 0` numpy computes `0/0 = NaN` and the sample is NaN, whereas
Lean's total division evaluates the branch to `F0 * exp 0`; this
definition is therefore float-faithful only away from a zero waist
(the zero-beam claim below does not rely on its value there). -/
def fluence_profile (p : SimParams) (r : ℝ) : ℝ :=
  match p.beam_profile with
  | BeamProfile.Gaussian =>
      peak_fluence_j_cm2 p * Real.exp (-2 * r ^ 2 / (w0_um p) ^ 2)
  | BeamProfile.TopHat =>
      if |r| ≤ w0_um p then peak_fluence_j_cm2 p else 0

/-- `depth_profile_um` at radius `r` (lines 26-31): `alpha_inv *
log(F(r)/F_th)` on the ablation mask `F(r) > F_th`, `0` elsewhere. -/
def depth_profile_um (p : SimParams) (r : ℝ) : ℝ :=
  if fluence_profile p r > p.ablation_threshold_j_cm2 then
    p.alpha_inv * Real.log (fluence_profile p r / p.ablation_threshold_j_cm2)
  else 0

/-- `np.any(ablation_mask)` (line 29): some grid sample exceeds the
ablation threshold. -/
def ablationAny (p : SimParams) : Prop :=
  ∃ i ∈ gridIdx, fluence_profile p (r_um p i) > p.ablation_threshold_j_cm2

/-- `top_diameter_um` (lines 32-38): inside the `np.any(ablation_mask)`
branch, Gaussian gives `sqrt(2*w0^2*log(F0/F_th))` when the log term is
positive, top-hat gives the beam diameter when `F0 > F_th`; otherwise
`0`. -/
def top_diameter_um (p : SimParams) : ℝ :=
  if ablationAny p then
    match p.beam_profile with
    | BeamProfile.Gaussian =>
        if Real.log (peak_fluence_j_cm2 p / p.ablation_threshold_j_cm2) > 0 then
          Real.sqrt (2 * (w0_um p) ^ 2 *
            Real.log (peak_fluence_j_cm2 p / p.ablation_threshold_j_cm2))
        else 0
    | BeamProfile.TopHat =>
        if peak_fluence_j_cm2 p > p.ablation_threshold_j_cm2 then
          p.beam_diameter_um
        else 0
  else 0

/-- `max_depth_per_pulse = depth_profile_um.max()` (line 40). -/
def max_depth_per_pulse (p : SimParams) : ℝ :=
  Finset.sup' gridIdx ⟨0, by simp [gridIdx]⟩ fun i => depth_profile_um p (r_um p i)

/-- `total_depth_profile = number_of_shots * depth_profile_um`
(line 41), at radius `r`. -/
def total_depth_profile (p : SimParams) (r : ℝ) : ℝ :=
  (p.number_of_shots : ℝ) * depth_profile_um p r

/-- `final_via_profile = np.clip(total_depth_profile, 0,
material_thickness)` (line 42), at radius `r`. -/
def final_via_profile (p : SimParams) (r : ℝ) : ℝ :=
  min (max (total_depth_profile p r) 0) p.material_thickness

/-- `through_mask = total_depth_profile >= material_thickness`
(line 44), as the set of grid indices where it holds
(`np.where(through_mask)[0]`, line 46). -/
def throughSet (p : SimParams) : Finset ℕ :=
  gridIdx.filter fun i => total_depth_profile p (r_um p i) ≥ p.material_thickness

/-- `bottom_diameter_um` (lines 45-49): `r_um[exit_indices[-1]] -
r_um[exit_indices[0]]` when the through mask is nonempty, else `0`. -/
def bottom_diameter_um (p : SimParams) : ℝ :=
  if h : (throughSet p).Nonempty then
    r_um p ((throughSet p).max' h) - r_um p ((throughSet p).min' h)
  else 0

/-- `taper_angle_deg` (lines 51-56):
`rad2deg(arctan(((top-bottom)/2)/thickness))` when the bottom diameter
is positive, else the sentinel `90`. -/
def taper_angle_deg (p : SimParams) : ℝ :=
  if bottom_diameter_um p > 0 then
    Real.arctan (((top_diameter_um p - bottom_diameter_um p) / 2) /
      p.material_thickness) * (180 / π)
  else 90

/-- `taper_ratio` (lines 54-57): `((top-bottom)/2)/thickness` when the
bottom diameter is positive, else `float('inf')`, modelled as the top
element of the extended reals. -/
def taper_ratio (p : SimParams) : EReal :=
  if bottom_diameter_um p > 0 then
    ((((top_diameter_um p - bottom_diameter_um p) / 2) /
      p.material_thickness : ℝ) : EReal)
  else ⊤

/-- The parameter dictionary `p` passed to
`calculate_goal_seeker_recipe` (beam_profile_visualizer.py). -/
structure GoalParams where
  target_diameter_um : ℝ
  material_thickness : ℝ
  overkill_shots : ℕ
  beam_diameter_um : ℝ
  ablation_threshold_j_cm2 : ℝ
  alpha_inv : ℝ

/-- `w0_cm = (p["beam_diameter_um"] / 2.0) * UM_TO_CM` (line 70). -/
def gs_w0_cm (q : GoalParams) : ℝ := (q.beam_diameter_um / 2) * UM_TO_CM

/-- `d_cm = p["target_diameter_um"] * UM_TO_CM` (line 71). -/
def gs_d_cm (q : GoalParams) : ℝ := q.target_diameter_um * UM_TO_CM

/-- `required_peak_fluence = F_th * exp(d_cm^2/(2*w0_cm^2)) if w0_cm > 0
else 0` (line 72). -/
def required_peak_fluence (q : GoalParams) : ℝ :=
  if gs_w0_cm q > 0 then
    q.ablation_threshold_j_cm2 *
      Real.exp ((gs_d_cm q) ^ 2 / (2 * (gs_w0_cm q) ^ 2))
  else 0

/-- `required_energy_J = (required_peak_fluence * pi * w0_cm^2) / 2.0`
(line 73). -/
def required_energy_J (q : GoalParams) : ℝ :=
  required_peak_fluence q * π * (gs_w0_cm q) ^ 2 / 2

/-- `pulse_energy_uJ = required_energy_J / UJ_TO_J` (line 74). -/
def gs_pulse_energy_uJ (q : GoalParams) : ℝ := required_energy_J q / UJ_TO_J

/-- `max_depth_per_pulse = alpha_inv * log(F_req/F_th) if F_req > F_th
else 0` (line 75). -/
def gs_max_depth_per_pulse (q : GoalParams) : ℝ :=
  if required_peak_fluence q > q.ablation_threshold_j_cm2 then
    q.alpha_inv *
      Real.log (required_peak_fluence q / q.ablation_threshold_j_cm2)
  else 0

/-- `number_of_shots` (lines 77-81): when the depth per pulse is
positive, `ceil(thickness/depth) + overkill_shots`; else the
non-viability sentinel `0`. -/
def gs_number_of_shots (q : GoalParams) : ℤ :=
  if gs_max_depth_per_pulse q > 0 then
    ⌈q.material_thickness / gs_max_depth_per_pulse q⌉ + (q.overkill_shots : ℤ)
  else 0

/-- The fixed inputs of the dose-target explorer
(`dose_target_seeker.py`, render lines 17-19). -/
structure DoseParams where
  target_dose : ℝ
  beam_diameter_um : ℝ
  rep_rate_khz : ℝ

/-- `area_cm2 = pi * ((beam_diameter_um / 2.0) * UM_TO_CM)^2`
(dose_target_seeker.py line 37). -/
def area_cm2 (p : DoseParams) : ℝ :=
  π * ((p.beam_diameter_um / 2) * UM_TO_CM) ^ 2

/-- `required_peak_fluence = target_dose / shots`
(dose_target_seeker.py line 43), for one entry of `shots_range`. -/
def dose_required_peak_fluence (p : DoseParams) (shots : ℝ) : ℝ :=
  p.target_dose / shots

/-- `required_pulse_energy_J = (required_peak_fluence * area_cm2) / 2.0`
(dose_target_seeker.py line 44). -/
def required_pulse_energy_J (p : DoseParams) (shots : ℝ) : ℝ :=
  dose_required_peak_fluence p shots * area_cm2 p / 2

/-- `required_avg_power_W = required_pulse_energy_J * (rep_rate_khz *
1000)` (dose_target_seeker.py line 45). -/
def required_avg_power_W (p : DoseParams) (shots : ℝ) : ℝ :=
  required_pulse_energy_J p shots * (p.rep_rate_khz * 1000)

/-- `required_avg_power_mW = required_avg_power_W * 1000`
(dose_target_seeker.py line 46).  This is the spec's `solve_power`
direction (spec section 4.3). -/
def required_avg_power_mW (p : DoseParams) (shots : ℝ) : ℝ :=
  required_avg_power_W p shots * 1000

/-- Modelled from the spec: the dual direction `solve_shots` of spec
section 4.3 is declared by the spec but absent from `src/` (the source
only tabulates `solve_power` over a shot range and compares against the
power limit).  Per the spec's words, it returns the ceiling of the shot
count implied by the available average power: inverting
`P_mW(N) = (dose/N) * area/2 * (rep_khz*1000) * 1000` gives
`N = dose * area/2 * (rep_khz*1000) * 1000 / P_mW`. -/
def solve_shots_mW (p : DoseParams) (power_mW : ℝ) : ℤ :=
  ⌈p.target_dose * area_cm2 p / 2 * (p.rep_rate_khz * 1000) * 1000 /
    power_mW⌉

/-- The `fixed_params` dictionary of `calculate_tradeoffs`
(`sensitivity_analyzer.py`, render line 127). -/
structure SweepParams where
  target_diameter_um : ℝ
  material_thickness : ℝ
  ablation_threshold : ℝ
  penetration_depth : ℝ
  min_spot : ℝ
  max_spot : ℝ
  overkill_shots : ℕ

/-- The index set of the sweep grid:
`np.linspace(min_spot, max_spot, 200)` has 200 samples
(sensitivity_analyzer.py line 12). -/
def sweepIdx : Finset ℕ := Finset.range 200

/-- Sample `i` of `spot_diameters = np.linspace(min_spot, max_spot,
200)` (sensitivity_analyzer.py line 12). -/
def spot_diameter (s : SweepParams) (i : ℕ) : ℝ :=
  s.min_spot + (i : ℝ) * (s.max_spot - s.min_spot) / 199

/-- `w0s_um = spot_diameters / 2.0` (sensitivity_analyzer.py line 13). -/
def sw_w0_um (s : SweepParams) (i : ℕ) : ℝ := spot_diameter s i / 2

/-- `w0s_cm = w0s_um * UM_TO_CM` (sensitivity_analyzer.py line 13). -/
def sw_w0_cm (s : SweepParams) (i : ℕ) : ℝ := sw_w0_um s i * UM_TO_CM

/-- `d_top_cm = target_diameter_um * UM_TO_CM`
(sensitivity_analyzer.py line 14). -/
def sw_d_top_cm (s : SweepParams) : ℝ := s.target_diameter_um * UM_TO_CM

/-- `required_peak_fluence = ablation_threshold * exp(d_top_cm^2 /
(2*w0s_cm^2))` (sensitivity_analyzer.py line 16). -/
def sw_required_peak_fluence (s : SweepParams) (i : ℕ) : ℝ :=
  s.ablation_threshold *
    Real.exp ((sw_d_top_cm s) ^ 2 / (2 * (sw_w0_cm s i) ^ 2))

/-- `fluence_ratio = required_peak_fluence / ablation_threshold`
(sensitivity_analyzer.py line 17). -/
def sw_fluence_ratio (s : SweepParams) (i : ℕ) : ℝ :=
  sw_required_peak_fluence s i / s.ablation_threshold

/-- `depth_per_pulse = penetration_depth * log(fluence_ratio)`
(sensitivity_analyzer.py line 19). -/
def sw_depth_per_pulse (s : SweepParams) (i : ℕ) : ℝ :=
  s.penetration_depth * Real.log (sw_fluence_ratio s i)

/-- `total_shots = ceil(material_thickness / depth_per_pulse) +
overkill_shots` (sensitivity_analyzer.py line 20; `np.ceil` on reals). -/
def sw_total_shots (s : SweepParams) (i : ℕ) : ℝ :=
  (⌈s.material_thickness / sw_depth_per_pulse s i⌉ : ℝ) +
    (s.overkill_shots : ℝ)

/-- `fluence_at_bottom = ablation_threshold * exp(material_thickness /
(total_shots * penetration_depth))` (sensitivity_analyzer.py line 22). -/
def sw_fluence_at_bottom (s : SweepParams) (i : ℕ) : ℝ :=
  s.ablation_threshold *
    Real.exp (s.material_thickness /
      (sw_total_shots s i * s.penetration_depth))

/-- `log_term_bottom = log(max(1, required_peak_fluence /
fluence_at_bottom))` (sensitivity_analyzer.py line 23). -/
def sw_log_term_bottom (s : SweepParams) (i : ℕ) : ℝ :=
  Real.log (max 1 (sw_required_peak_fluence s i / sw_fluence_at_bottom s i))

/-- `bottom_diameter_um = sqrt(2 * w0s_um^2 * log_term_bottom)`
(sensitivity_analyzer.py lines 24-25; `nan_to_num` is the identity in
the real-number model, the radicand being nonnegative). -/
def sw_bottom_diameter_um (s : SweepParams) (i : ℕ) : ℝ :=
  Real.sqrt (2 * (sw_w0_um s i) ^ 2 * sw_log_term_bottom s i)

/-- `taper_angle = rad2deg(arctan((target_diameter_um -
bottom_diameter_um) / (2 * material_thickness)))`
(sensitivity_analyzer.py line 27). -/
def sw_taper_angle (s : SweepParams) (i : ℕ) : ℝ :=
  Real.arctan ((s.target_diameter_um - sw_bottom_diameter_um s i) /
    (2 * s.material_thickness)) * (180 / π)

/-- `process_window = target_diameter_um - bottom_diameter_um`
(sensitivity_analyzer.py line 28). -/
def sw_process_window (s : SweepParams) (i : ℕ) : ℝ :=
  s.target_diameter_um - sw_bottom_diameter_um s i

/-- Clamp a value to the unit interval; the normalization of a gauge
reading against its full-scale range. -/
def unitClamp (x : ℝ) : ℝ := min (max x 0) 1

/-- Modelled from the spec: the normalized energy-efficiency sub-score
of the final scoring variant (spec section 4.4) is not under `src/`
(the source renders gauges and a rule-based verdict only).  The
efficiency gauge reads `fluence_ratio` full scale 20, lower is better
(render lines 145, 150), so the normalized sub-score is `1 -
fluence_ratio/20` clamped to `[0, 1]`. -/
def efficiencySubScore (s : SweepParams) (i : ℕ) : ℝ :=
  unitClamp (1 - sw_fluence_ratio s i / 20)

/-- Modelled from the spec: the normalized taper-quality sub-score of
the final scoring variant (spec section 4.4) is not under `src/`.  The
taper gauge reads `taper_angle` full scale 20 degrees, lower is better
(render lines 146, 152), so the normalized sub-score is `1 -
taper_angle/20` clamped to `[0, 1]`. -/
def taperSubScore (s : SweepParams) (i : ℕ) : ℝ :=
  unitClamp (1 - sw_taper_angle s i / 20)

/-- Modelled from the spec: the normalized process-window-stability
sub-score of the final scoring variant (spec section 4.4) is not under
`src/`.  The stability gauge reads `process_window` full scale
`target_diameter_um`, higher is better (render lines 147, 154), so the
normalized sub-score is `process_window/target_diameter_um` clamped to
`[0, 1]`. -/
def stabilitySubScore (s : SweepParams) (i : ℕ) : ℝ :=
  unitClamp (sw_process_window s i / s.target_diameter_um)

/-- Modelled from the spec: the scalar quality score of the final
scoring variant (spec section 4.4) is not under `src/`; per the spec's
words it is the weighted blend of the normalized sub-scores with
weights taper 50%, efficiency 25%, stability 25%. -/
def quality_score (s : SweepParams) (i : ℕ) : ℝ :=
  0.5 * taperSubScore s i + 0.25 * efficiencySubScore s i +
    0.25 * stabilitySubScore s i

/-- Spec section 8, scenario 1: the Gaussian parameter set
`beam_diameter_um = 30`, `pulse_energy_uJ = 10`,
`ablation_threshold = 0.18`, `penetration_depth = 0.30`,
`number_of_shots = 75`, `material_thickness = 50`. -/
def scenario1 : SimParams :=
  { beam_profile := BeamProfile.Gaussian
    beam_diameter_um := 30
    pulse_energy_uJ := 10
    ablation_threshold_j_cm2 := 0.18
    alpha_inv := 0.30
    number_of_shots := 75
    material_thickness := 50 }

/-- An all-zero-beam parameter set for exercising the zero-diameter
boundary policy. -/
def zeroBeamParams : SimParams :=
  { beam_profile := BeamProfile.Gaussian
    beam_diameter_um := 0
    pulse_energy_uJ := 1
    ablation_threshold_j_cm2 := 1
    alpha_inv := 1
    number_of_shots := 1
    material_thickness := 1 }

/-- The goal-seeker parameter set whose target is the forward top
diameter of scenario 1, with matching beam and material data. -/
def goalScenario1 : GoalParams :=
  { target_diameter_um := top_diameter_um scenario1
    material_thickness := 50
    overkill_shots := 10
    beam_diameter_um := 30
    ablation_threshold_j_cm2 := 0.18
    alpha_inv := 0.30 }

/-- A small top-hat parameter set (beam diameter 2 µm, pulse energy
1 µJ, threshold 1 J/cm²) whose centre fluence is `100/π` J/cm². -/
def topHatParams : SimParams :=
  { beam_profile := BeamProfile.TopHat
    beam_diameter_um := 2
    pulse_energy_uJ := 1
    ablation_threshold_j_cm2 := 1
    alpha_inv := 1
    number_of_shots := 1
    material_thickness := 1 }

/-- Spec section 8, scenario 3: `target_dose = 175 J/cm²`,
`beam_diameter_um = 30`, `rep_rate_khz = 50`. -/
def doseScenario : DoseParams :=
  { target_dose := 175
    beam_diameter_um := 30
    rep_rate_khz := 50 }

/-- The sweep parameter set built by the sensitivity analyzer's render
defaults: target 50 µm, thickness 80 µm, threshold 1 J/cm², penetration
depth 0.5 µm, spot range `[0.8, 2.0]` times the target, overkill 10. -/
def sweepScenario : SweepParams :=
  { target_diameter_um := 50
    material_thickness := 80
    ablation_threshold := 1
    penetration_depth := 0.5
    min_spot := 40
    max_spot := 100
    overkill_shots := 10 }

/-- A Gaussian parameter set tuned so that exactly one grid sample
penetrates the material: beam diameter 10 µm, pulse energy 1 µJ,
threshold `8/(π e)` J/cm² (so the centre fluence ratio is exactly `e`),
penetration depth 1 µm, a single shot and thickness 1 µm. -/
def singletonParams : SimParams :=
  { beam_profile := BeamProfile.Gaussian
    beam_diameter_um := 10
    pulse_energy_uJ := 1
    ablation_threshold_j_cm2 := 8 / (π * Real.exp 1)
    alpha_inv := 1
    number_of_shots := 1
    material_thickness := 1 }

/-- A goal-seeker parameter set with a non-positive beam diameter. -/
def degenerateGoal : GoalParams :=
  { target_diameter_um := 25
    material_thickness := 40
    overkill_shots := 10
    beam_diameter_um := 0
    ablation_threshold_j_cm2 := 0.9
    alpha_inv := 0.8 }

end LaserDashboard

namespace LaserDashboard

lemma UM_TO_CM_pos : 0 < UM_TO_CM := by norm_num [UM_TO_CM]

lemma UJ_TO_J_pos : 0 < UJ_TO_J := by norm_num [UJ_TO_J]

/-- The middle sample of the 501-point grid sits exactly at radius 0. -/
lemma r_um_mid (p : SimParams) : r_um p 250 = 0 := by
  simp only [r_um]
  ring

/-- The peak fluence of scenario 1 evaluates to `80 / (9π)` J/cm². -/
lemma peak_scenario1 : peak_fluence_j_cm2 scenario1 = 80 / (9 * π) := by
  have hπ : (π : ℝ) ≠ 0 := Real.pi_ne_zero
  simp only [peak_fluence_j_cm2, scenario1, w0_um, pulse_energy_j, UM_TO_CM,
    UJ_TO_J]
  rw [if_pos (by norm_num)]
  field_simp
  ring

/-- Numeric bound: the scenario-1 peak fluence exceeds 2.8 J/cm². -/
lemma peak_scenario1_gt : (2.8 : ℝ) < peak_fluence_j_cm2 scenario1 := by
  rw [peak_scenario1]
  rw [lt_div_iff₀ (by positivity)]
  nlinarith [Real.pi_lt_d2]

/-- C7, counterexample: in scenario 1 the code's peak fluence is more
than 1 J/cm² away from the claimed value 0.707 J/cm², so it is not
approximately 0.707. -/
theorem c7_peak_not_0707 :
    1 < |peak_fluence_j_cm2 scenario1 - 0.707| := by
  have h := peak_scenario1_gt
  rw [abs_of_pos (by linarith)]
  linarith

/-- C7, amended: in scenario 1 the peak fluence computed by
`F0 = 2E/(π w0_cm²)` is approximately 2.829 J/cm² (within 0.001). -/
theorem c7_peak_approx_2829 :
    |peak_fluence_j_cm2 scenario1 - 2.829| < 0.001 := by
  rw [peak_scenario1, abs_sub_lt_iff]
  have h1 := Real.pi_gt_d6
  have h2 := Real.pi_lt_d6
  have hπ : (0 : ℝ) < 9 * π := by positivity
  constructor
  · rw [sub_lt_iff_lt_add, div_lt_iff₀ hπ]
    nlinarith
  · have h3 : (2.828 : ℝ) < 80 / (9 * π) := by
      rw [lt_div_iff₀ hπ]
      nlinarith
    linarith

/-- C5: the inverse recipe solver is a total function whose guards
return sentinel values instead of failing: with a positive ablation
threshold, a non-positive beam diameter yields the no-solution result
(zero shots and zero required pulse energy), and whenever the computed
depth per pulse is non-positive the returned shot count is zero (no
division by the depth occurs). -/
theorem c5_goal_seeker_guards (q : GoalParams)
    (hFth : 0 < q.ablation_threshold_j_cm2) :
    (q.beam_diameter_um ≤ 0 →
      gs_number_of_shots q = 0 ∧ gs_pulse_energy_uJ q = 0) ∧
    (gs_max_depth_per_pulse q ≤ 0 → gs_number_of_shots q = 0) := by
  constructor
  · intro hd
    have hw0 : ¬ gs_w0_cm q > 0 := by
      rw [not_lt]
      have : q.beam_diameter_um / 2 ≤ 0 := by linarith
      have := mul_nonpos_of_nonpos_of_nonneg this UM_TO_CM_pos.le
      simpa [gs_w0_cm] using this
    have hreq : required_peak_fluence q = 0 := by
      rw [required_peak_fluence, if_neg hw0]
    have hdpp : gs_max_depth_per_pulse q = 0 := by
      rw [gs_max_depth_per_pulse, if_neg]
      rw [hreq]
      exact not_lt.mpr hFth.le
    refine ⟨?_, ?_⟩
    · rw [gs_number_of_shots, if_neg (by rw [hdpp]; exact lt_irrefl 0)]
    · rw [gs_pulse_energy_uJ, required_energy_J, hreq]
      ring
  · intro hdpp
    rw [gs_number_of_shots, if_neg (not_lt.mpr hdpp)]

/-- C5, witness: the guarded behaviour at the concrete degenerate goal
(beam diameter 0). -/
theorem c5_goal_seeker_guards_witness :
    (0 : ℝ) < degenerateGoal.ablation_threshold_j_cm2 ∧
    (degenerateGoal.beam_diameter_um ≤ 0 →
      gs_number_of_shots degenerateGoal = 0 ∧
      gs_pulse_energy_uJ degenerateGoal = 0) ∧
    (gs_max_depth_per_pulse degenerateGoal ≤ 0 →
      gs_number_of_shots degenerateGoal = 0) :=
  ⟨by norm_num [degenerateGoal],
    c5_goal_seeker_guards degenerateGoal (by norm_num [degenerateGoal])⟩

/-- With a non-positive beam diameter and positive threshold, the
fluence profile is identically zero. -/
lemma fluence_zero_of_nonpos_beam (p : SimParams)
    (hd : p.beam_diameter_um ≤ 0) (r : ℝ) : fluence_profile p r = 0 := by
  have hw0 : ¬ w0_um p > 0 := by
    rw [not_lt, w0_um]
    linarith
  have hpeak : peak_fluence_j_cm2 p = 0 := by
    rw [peak_fluence_j_cm2]
    cases p.beam_profile <;> simp [if_neg hw0]
  rw [fluence_profile]
  cases p.beam_profile <;> simp [hpeak]

/-- C8, code-bug record at the failing input (Gaussian beam of
diameter 0).  The spec's edge-case policy asks for zero fluence and
zero depth everywhere with the divide-by-zero guarded, but line 21's
Gaussian exponent `-2 r^2 / w0^2` is unguarded: at beam diameter 0
every sampled radius is 0 and the squared waist is 0 (first conjunct),
so the float division is `0/0` and the program's fluence samples are
NaN, not zero.  The guarded outputs do behave as the claim states, and
this theorem evaluates them at the failing input: zero peak fluence,
zero ablation depth at every sample, zero maximum depth per pulse,
zero top and bottom diameters, and a zero via profile, with no
exception possible. -/
theorem c8_zero_beam_nan_division :
    (∀ i ∈ gridIdx, r_um zeroBeamParams i = 0 ∧
      (w0_um zeroBeamParams) ^ 2 = 0) ∧
    peak_fluence_j_cm2 zeroBeamParams = 0 ∧
    (∀ i ∈ gridIdx, depth_profile_um zeroBeamParams
      (r_um zeroBeamParams i) = 0) ∧
    max_depth_per_pulse zeroBeamParams = 0 ∧
    top_diameter_um zeroBeamParams = 0 ∧
    bottom_diameter_um zeroBeamParams = 0 ∧
    (∀ i ∈ gridIdx, final_via_profile zeroBeamParams
      (r_um zeroBeamParams i) = 0) := by
  have hd : zeroBeamParams.beam_diameter_um ≤ 0 := by
    norm_num [zeroBeamParams]
  have hFth : (0 : ℝ) < zeroBeamParams.ablation_threshold_j_cm2 := by
    norm_num [zeroBeamParams]
  have hT : (0 : ℝ) < zeroBeamParams.material_thickness := by
    norm_num [zeroBeamParams]
  have hw0 : ¬ w0_um zeroBeamParams > 0 := by
    norm_num [w0_um, zeroBeamParams]
  have hpeak : peak_fluence_j_cm2 zeroBeamParams = 0 := by
    rw [peak_fluence_j_cm2]
    cases zeroBeamParams.beam_profile <;> simp [if_neg hw0]
  have hflu : ∀ r : ℝ, fluence_profile zeroBeamParams r = 0 :=
    fluence_zero_of_nonpos_beam zeroBeamParams hd
  have hdepth : ∀ r : ℝ, depth_profile_um zeroBeamParams r = 0 := by
    intro r
    rw [depth_profile_um, if_neg]
    rw [hflu r]
    exact not_lt.mpr hFth.le
  have htotal : ∀ r : ℝ, total_depth_profile zeroBeamParams r = 0 := by
    intro r
    rw [total_depth_profile, hdepth r, mul_zero]
  have hthrough : ¬ (throughSet zeroBeamParams).Nonempty := by
    rintro ⟨i, hi⟩
    rw [throughSet, Finset.mem_filter] at hi
    rw [htotal] at hi
    exact absurd hi.2 (not_le.mpr hT)
  refine ⟨?_, hpeak, fun i _ => hdepth _, ?_, ?_, ?_, ?_⟩
  · intro i _
    constructor
    · simp only [r_um, zeroBeamParams]
      norm_num
    · norm_num [w0_um, zeroBeamParams]
  · apply le_antisymm
    · exact Finset.sup'_le _ _ fun i _ => (hdepth _).le
    · have h0 : (0 : ℕ) ∈ gridIdx := by simp [gridIdx]
      have h1 := Finset.le_sup'
        (fun i => depth_profile_um zeroBeamParams (r_um zeroBeamParams i)) h0
      rw [hdepth] at h1
      exact h1
  · rw [top_diameter_um, if_neg]
    rintro ⟨i, _, hgt⟩
    rw [hflu] at hgt
    exact absurd hgt (not_lt.mpr hFth.le)
  · rw [bottom_diameter_um, dif_neg hthrough]
  · intro i _
    rw [final_via_profile, htotal]
    simp [hT.le]

/-- For a Gaussian profile the fluence at radius 0 is the peak
fluence. -/
lemma fluence_at_zero (p : SimParams)
    (hprof : p.beam_profile = BeamProfile.Gaussian) :
    fluence_profile p 0 = peak_fluence_j_cm2 p := by
  simp [fluence_profile, hprof]

/-- For a Gaussian profile whose peak fluence exceeds the threshold,
some grid sample is above the threshold (the centre sample is). -/
lemma ablationAny_of_peak_gt (p : SimParams)
    (hprof : p.beam_profile = BeamProfile.Gaussian)
    (hF0 : peak_fluence_j_cm2 p > p.ablation_threshold_j_cm2) :
    ablationAny p := by
  refine ⟨250, by simp [gridIdx], ?_⟩
  rw [r_um_mid, fluence_at_zero p hprof]
  exact hF0

/-- For a Gaussian profile above threshold the top diameter is the
closed-form `sqrt(2 w0^2 log(F0/F_th))`. -/
lemma top_diameter_gaussian (p : SimParams)
    (hprof : p.beam_profile = BeamProfile.Gaussian)
    (hFth : 0 < p.ablation_threshold_j_cm2)
    (hF0 : peak_fluence_j_cm2 p > p.ablation_threshold_j_cm2) :
    top_diameter_um p =
      Real.sqrt (2 * (w0_um p) ^ 2 *
        Real.log (peak_fluence_j_cm2 p / p.ablation_threshold_j_cm2)) := by
  have hL : 0 < Real.log (peak_fluence_j_cm2 p / p.ablation_threshold_j_cm2) :=
    Real.log_pos ((one_lt_div hFth).mpr hF0)
  rw [top_diameter_um, if_pos (ablationAny_of_peak_gt p hprof hF0)]
  simp only [hprof]
  rw [if_pos hL]

/-- C1: the forward/inverse round trip.  For every positive beam
diameter, pulse energy and threshold with a Gaussian profile whose peak
fluence `F0 = 2E/(π w0_cm²)` exceeds the threshold, feeding the forward
top diameter `sqrt(2 w0² log(F0/F_th))` into the inverse solver's
required-peak-fluence and required-energy formulas reproduces the
original peak fluence and the original pulse energy exactly. -/
theorem c1_forward_inverse_roundtrip (p : SimParams) (q : GoalParams)
    (hprof : p.beam_profile = BeamProfile.Gaussian)
    (hd : 0 < p.beam_diameter_um)
    (hE : 0 < p.pulse_energy_uJ)
    (hFth : 0 < p.ablation_threshold_j_cm2)
    (hF0 : peak_fluence_j_cm2 p > p.ablation_threshold_j_cm2)
    (hqd : q.beam_diameter_um = p.beam_diameter_um)
    (hqFth : q.ablation_threshold_j_cm2 = p.ablation_threshold_j_cm2)
    (hqt : q.target_diameter_um = top_diameter_um p) :
    required_peak_fluence q = peak_fluence_j_cm2 p ∧
    gs_pulse_energy_uJ q = p.pulse_energy_uJ := by
  have hc : (0 : ℝ) < UM_TO_CM := UM_TO_CM_pos
  have hw0 : 0 < w0_um p := by rw [w0_um]; linarith
  have hπ := Real.pi_pos
  have hF0pos : 0 < peak_fluence_j_cm2 p := lt_trans hFth hF0
  have hL : 0 < Real.log (peak_fluence_j_cm2 p / p.ablation_threshold_j_cm2) :=
    Real.log_pos ((one_lt_div hFth).mpr hF0)
  have hw0cm : 0 < gs_w0_cm q := by
    rw [gs_w0_cm, hqd]
    have : 0 < p.beam_diameter_um / 2 := by linarith
    exact mul_pos this hc
  have hpeak : peak_fluence_j_cm2 p =
      2 * pulse_energy_j p / (π * (w0_um p * UM_TO_CM) ^ 2) := by
    simp only [peak_fluence_j_cm2, hprof]
    rw [if_pos hw0]
  have hreq : required_peak_fluence q = peak_fluence_j_cm2 p := by
    rw [required_peak_fluence, if_pos hw0cm, gs_d_cm, hqt,
      top_diameter_gaussian p hprof hFth hF0, hqFth]
    have hsq : (Real.sqrt (2 * (w0_um p) ^ 2 *
        Real.log (peak_fluence_j_cm2 p / p.ablation_threshold_j_cm2)) *
          UM_TO_CM) ^ 2 =
        2 * (w0_um p) ^ 2 *
          Real.log (peak_fluence_j_cm2 p / p.ablation_threshold_j_cm2) *
            UM_TO_CM ^ 2 := by
      rw [mul_pow, Real.sq_sqrt (by positivity)]
    rw [hsq]
    have harg : 2 * (w0_um p) ^ 2 *
        Real.log (peak_fluence_j_cm2 p / p.ablation_threshold_j_cm2) *
          UM_TO_CM ^ 2 / (2 * (gs_w0_cm q) ^ 2) =
        Real.log (peak_fluence_j_cm2 p / p.ablation_threshold_j_cm2) := by
      rw [gs_w0_cm, hqd]
      have hw0' : w0_um p = p.beam_diameter_um / 2 := rfl
      field_simp
      rw [hw0']
      ring
    rw [harg, Real.exp_log (div_pos hF0pos hFth)]
    field_simp
  refine ⟨hreq, ?_⟩
  rw [gs_pulse_energy_uJ, required_energy_J, hreq, hpeak]
  have hw0q : gs_w0_cm q = w0_um p * UM_TO_CM := by
    rw [gs_w0_cm, hqd, w0_um]
  rw [hw0q, pulse_energy_j]
  have hUJ : (0 : ℝ) < UJ_TO_J := UJ_TO_J_pos
  field_simp
  ring

/-- C1, witness: the round trip at scenario 1 and its derived goal. -/
theorem c1_forward_inverse_roundtrip_witness :
    peak_fluence_j_cm2 scenario1 > scenario1.ablation_threshold_j_cm2 ∧
    required_peak_fluence goalScenario1 = peak_fluence_j_cm2 scenario1 ∧
    gs_pulse_energy_uJ goalScenario1 = scenario1.pulse_energy_uJ :=
  ⟨lt_trans (by norm_num [scenario1]) peak_scenario1_gt,
    c1_forward_inverse_roundtrip scenario1 goalScenario1 rfl
      (by norm_num [scenario1]) (by norm_num [scenario1])
      (by norm_num [scenario1])
      (lt_trans (by norm_num [scenario1]) peak_scenario1_gt)
      (by norm_num [goalScenario1, scenario1])
      (by norm_num [goalScenario1, scenario1]) rfl⟩

/-- C3: the radial profile is built on exactly 501 evenly spaced
samples of the symmetric domain `[-1.5 d, 1.5 d]` (the endpoints are
`∓1.5 d` and consecutive samples are `3d/500` apart), and at every
sampled radius — every index of `gridIdx`, the final sample 500
included — the per-pulse depth obeys the Liu single-pulse law:
`alpha_inv * log(F(r)/F_th)` where `F(r) > F_th`, and `0` where
`F(r) ≤ F_th`. -/
theorem c3_grid_and_liu_law (p : SimParams) (i : ℕ) (hi : i ∈ gridIdx) :
    gridIdx.card = 501 ∧
    r_um p 0 = -(p.beam_diameter_um * 1.5) ∧
    r_um p 500 = p.beam_diameter_um * 1.5 ∧
    (i + 1 ∈ gridIdx →
      r_um p (i + 1) - r_um p i = 3 * p.beam_diameter_um / 500) ∧
    (fluence_profile p (r_um p i) > p.ablation_threshold_j_cm2 →
      depth_profile_um p (r_um p i) =
        p.alpha_inv * Real.log (fluence_profile p (r_um p i) /
          p.ablation_threshold_j_cm2)) ∧
    (fluence_profile p (r_um p i) ≤ p.ablation_threshold_j_cm2 →
      depth_profile_um p (r_um p i) = 0) := by
  refine ⟨by simp [gridIdx], by simp [r_um], ?_, ?_, ?_, ?_⟩
  · simp only [r_um]
    push_cast
    ring
  · intro _
    simp only [r_um]
    push_cast
    ring
  · intro h
    rw [depth_profile_um, if_pos h]
  · intro h
    rw [depth_profile_um, if_neg (not_lt.mpr h)]

/-- The centre-sample fluence of the small top-hat parameter set. -/
lemma topHat_centre_fluence :
    fluence_profile topHatParams (r_um topHatParams 250) = 100 / π := by
  rw [r_um_mid]
  have hπ : (π : ℝ) ≠ 0 := Real.pi_ne_zero
  simp only [fluence_profile, topHatParams]
  rw [if_pos (by norm_num [w0_um])]
  simp only [peak_fluence_j_cm2, w0_um, pulse_energy_j, UM_TO_CM, UJ_TO_J]
  rw [if_pos (by norm_num)]
  field_simp
  ring

/-- The centre-sample fluence of the small top-hat parameter set
exceeds its ablation threshold. -/
lemma topHat_centre_above_threshold :
    fluence_profile topHatParams (r_um topHatParams 250) >
      topHatParams.ablation_threshold_j_cm2 := by
  rw [topHat_centre_fluence]
  have h : (1 : ℝ) < 100 / π := by
    rw [lt_div_iff₀ Real.pi_pos]
    nlinarith [Real.pi_lt_four]
  simpa [topHatParams] using h

/-- C3, witness: the grid facts and the positive branch of the Liu law
at the centre sample of the small top-hat parameter set. -/
theorem c3_grid_and_liu_law_witness :
    (250 ∈ gridIdx) ∧
    fluence_profile topHatParams (r_um topHatParams 250) >
      topHatParams.ablation_threshold_j_cm2 ∧
    depth_profile_um topHatParams (r_um topHatParams 250) =
      topHatParams.alpha_inv *
        Real.log (fluence_profile topHatParams (r_um topHatParams 250) /
          topHatParams.ablation_threshold_j_cm2) :=
  ⟨by simp [gridIdx], topHat_centre_above_threshold,
    (c3_grid_and_liu_law topHatParams 250 (by simp [gridIdx])).2.2.2.2.1
      topHat_centre_above_threshold⟩

/-- Closed form of the dose scenario's required power at a real shot
count: `9843.75 π / N` milliwatts. -/
lemma power_doseScenario (n : ℝ) :
    required_avg_power_mW doseScenario n = 9843.75 * π / n := by
  simp only [required_avg_power_mW, required_avg_power_W,
    required_pulse_energy_J, dose_required_peak_fluence, area_cm2,
    doseScenario, UM_TO_CM]
  ring

/-- Closed form of the dose scenario's modelled shots solver. -/
lemma solve_shots_doseScenario (power : ℝ) :
    solve_shots_mW doseScenario power = ⌈9843.75 * π / power⌉ := by
  simp only [solve_shots_mW, area_cm2, doseScenario, UM_TO_CM]
  norm_num
  ring_nf

/-- C6, counterexample: the power-direction round trip fails.  At the
scenario-3 dose parameters, the available power `6562.5 π mW` implies
1.5 shots, the modelled `solve_shots` ceils it to 2, and re-solving the
power for 2 shots returns `4921.875 π mW` — more than 1000 mW away
from the original power, far beyond floating tolerance. -/
theorem c6_power_roundtrip_fails :
    solve_shots_mW doseScenario (6562.5 * π) = 2 ∧
    1000 < |required_avg_power_mW doseScenario
        ((solve_shots_mW doseScenario (6562.5 * π) : ℤ) : ℝ) -
      6562.5 * π| := by
  have hπ : (π : ℝ) ≠ 0 := Real.pi_ne_zero
  have hshots : solve_shots_mW doseScenario (6562.5 * π) = 2 := by
    rw [solve_shots_doseScenario]
    have harg : 9843.75 * π / (6562.5 * π) = 3 / 2 := by
      field_simp
      ring
    rw [harg]
    norm_num [Int.ceil_eq_iff]
  refine ⟨hshots, ?_⟩
  rw [hshots, power_doseScenario]
  have h3 := Real.pi_gt_three
  have habs : (9843.75 : ℝ) * π / ((2 : ℤ) : ℝ) - 6562.5 * π =
      -(1640.625 * π) := by
    push_cast
    ring
  rw [habs, abs_neg, abs_of_pos (by positivity)]
  nlinarith

/-- C6, amended: the two directions are inverse only up to the
ceiling in `solve_shots`.  Starting from an integer shot count the
round trip is exact: for every positive dose, beam diameter,
repetition rate and positive integer shot count, `solve_shots` applied
to `solve_power`'s required average power returns the original shot
count.  (Starting from an arbitrary power, the ceiling moves the
implied fractional shot count, so the reverse direction round-trips
only when that count is already an integer, as the counterexample
shows.) -/
theorem c6_shots_roundtrip (p : DoseParams) (N : ℕ) (hN : 0 < N)
    (hdose : 0 < p.target_dose) (hd : 0 < p.beam_diameter_um)
    (hrep : 0 < p.rep_rate_khz) :
    solve_shots_mW p (required_avg_power_mW p (N : ℝ)) = N := by
  have harea : 0 < area_cm2 p := by
    rw [area_cm2]
    have : 0 < p.beam_diameter_um / 2 * UM_TO_CM :=
      mul_pos (by linarith) UM_TO_CM_pos
    positivity
  have hD : 0 < p.target_dose * area_cm2 p / 2 * (p.rep_rate_khz * 1000) *
      1000 := by positivity
  have hNne : (N : ℝ) ≠ 0 := Nat.cast_ne_zero.mpr hN.ne'
  have hpow : required_avg_power_mW p (N : ℝ) =
      p.target_dose * area_cm2 p / 2 * (p.rep_rate_khz * 1000) * 1000 /
        (N : ℝ) := by
    simp only [required_avg_power_mW, required_avg_power_W,
      required_pulse_energy_J, dose_required_peak_fluence]
    ring
  rw [solve_shots_mW, hpow]
  have hcancel : p.target_dose * area_cm2 p / 2 * (p.rep_rate_khz * 1000) *
      1000 / (p.target_dose * area_cm2 p / 2 * (p.rep_rate_khz * 1000) *
        1000 / (N : ℝ)) = (N : ℝ) := by
    exact div_div_cancel₀ hD.ne'
  rw [hcancel, Int.ceil_natCast]

/-- C6, witness: the exact shots-direction round trip at the
scenario-3 parameters with 50 shots. -/
theorem c6_shots_roundtrip_witness :
    0 < (50 : ℕ) ∧ 0 < doseScenario.target_dose ∧
    solve_shots_mW doseScenario
      (required_avg_power_mW doseScenario ((50 : ℕ) : ℝ)) = 50 :=
  ⟨by norm_num, by norm_num [doseScenario],
    c6_shots_roundtrip doseScenario 50 (by norm_num)
      (by norm_num [doseScenario]) (by norm_num [doseScenario])
      (by norm_num [doseScenario])⟩

/-- A clamp to the unit interval lands in the unit interval. -/
lemma unitClamp_mem (x : ℝ) : unitClamp x ∈ Set.Icc (0 : ℝ) 1 :=
  ⟨le_min (le_max_right _ _) zero_le_one, min_le_right _ _⟩

/-- C9: for each sampled spot diameter of the sensitivity sweep the
scalar quality score is precisely the weighted blend of the normalized
energy-efficiency, taper-quality and process-window-stability
sub-scores with weights taper 50%, efficiency 25%, stability 25%; each
sub-score is normalized into `[0, 1]` and so is the blended score. -/
theorem c9_quality_score_blend (s : SweepParams) (i : ℕ)
    (hi : i ∈ sweepIdx) :
    quality_score s i =
      0.5 * taperSubScore s i + 0.25 * efficiencySubScore s i +
        0.25 * stabilitySubScore s i ∧
    taperSubScore s i ∈ Set.Icc (0 : ℝ) 1 ∧
    efficiencySubScore s i ∈ Set.Icc (0 : ℝ) 1 ∧
    stabilitySubScore s i ∈ Set.Icc (0 : ℝ) 1 ∧
    quality_score s i ∈ Set.Icc (0 : ℝ) 1 := by
  have ht := unitClamp_mem (1 - sw_taper_angle s i / 20)
  have he := unitClamp_mem (1 - sw_fluence_ratio s i / 20)
  have hs := unitClamp_mem (sw_process_window s i / s.target_diameter_um)
  refine ⟨rfl, ht, he, hs, ?_⟩
  rcases ht with ⟨ht0, ht1⟩
  rcases he with ⟨he0, he1⟩
  rcases hs with ⟨hs0, hs1⟩
  constructor
  · simp only [quality_score, taperSubScore, efficiencySubScore,
      stabilitySubScore]
    nlinarith
  · simp only [quality_score, taperSubScore, efficiencySubScore,
      stabilitySubScore]
    nlinarith

/-- C9, witness: the blend and its bounds at the first sample of the
default sweep scenario. -/
theorem c9_quality_score_blend_witness :
    (0 ∈ sweepIdx) ∧
    quality_score sweepScenario 0 =
      0.5 * taperSubScore sweepScenario 0 +
        0.25 * efficiencySubScore sweepScenario 0 +
        0.25 * stabilitySubScore sweepScenario 0 ∧
    quality_score sweepScenario 0 ∈ Set.Icc (0 : ℝ) 1 :=
  ⟨by simp [sweepIdx],
    (c9_quality_score_blend sweepScenario 0 (by simp [sweepIdx])).1,
    (c9_quality_score_blend sweepScenario 0 (by simp [sweepIdx])).2.2.2.2⟩

/-- A fluence sample above a positive threshold forces a positive beam
diameter (otherwise the profile is identically zero). -/
lemma beam_pos_of_fluence_gt (p : SimParams)
    (hFth : 0 < p.ablation_threshold_j_cm2) {r : ℝ}
    (h : fluence_profile p r > p.ablation_threshold_j_cm2) :
    0 < p.beam_diameter_um := by
  by_contra hd
  push_neg at hd
  rw [fluence_zero_of_nonpos_beam p hd] at h
  linarith

/-- The sample radii are monotone in the index for a nonnegative beam
diameter. -/
lemma r_um_mono (p : SimParams) (hd : 0 ≤ p.beam_diameter_um) {i j : ℕ}
    (hij : i ≤ j) : r_um p i ≤ r_um p j := by
  simp only [r_um]
  have hw : (0 : ℝ) ≤ p.beam_diameter_um * 1.5 -
      -(p.beam_diameter_um * 1.5) := by linarith
  have hij' : (i : ℝ) ≤ (j : ℝ) := by exact_mod_cast hij
  have h := mul_le_mul_of_nonneg_right hij' hw
  linarith [h]

/-- A through-mask index is a grid index whose sampled fluence exceeds
the threshold. -/
lemma through_above_threshold (p : SimParams)
    (hT : 0 < p.material_thickness) {i : ℕ} (hi : i ∈ throughSet p) :
    i ∈ gridIdx ∧
      fluence_profile p (r_um p i) > p.ablation_threshold_j_cm2 := by
  rw [throughSet, Finset.mem_filter] at hi
  refine ⟨hi.1, ?_⟩
  by_contra h
  have hdepth : depth_profile_um p (r_um p i) = 0 := by
    rw [depth_profile_um, if_neg h]
  have := hi.2
  rw [total_depth_profile, hdepth, mul_zero] at this
  linarith

/-- The top diameter is nonnegative whenever the threshold is
positive. -/
lemma top_nonneg (p : SimParams) (hFth : 0 < p.ablation_threshold_j_cm2) :
    0 ≤ top_diameter_um p := by
  rw [top_diameter_um]
  by_cases hany : ablationAny p
  · rw [if_pos hany]
    obtain ⟨i, _, hflu⟩ := id hany
    have hd := beam_pos_of_fluence_gt p hFth hflu
    cases hp : p.beam_profile
    · simp only
      split
      · exact Real.sqrt_nonneg _
      · exact le_refl 0
    · simp only
      split
      · exact hd.le
      · exact le_refl 0
  · rw [if_neg hany]

/-- Every through-mask sample lies within half the top diameter of the
beam axis. -/
lemma through_radius_le (p : SimParams)
    (hFth : 0 < p.ablation_threshold_j_cm2)
    (hT : 0 < p.material_thickness) {i : ℕ} (hi : i ∈ throughSet p) :
    |r_um p i| ≤ top_diameter_um p / 2 := by
  obtain ⟨higrid, hflu⟩ := through_above_threshold p hT hi
  have hd := beam_pos_of_fluence_gt p hFth hflu
  have hw0 : 0 < w0_um p := by rw [w0_um]; linarith
  have hany : ablationAny p := ⟨i, higrid, hflu⟩
  set r := r_um p i with hr
  cases hp : p.beam_profile
  case Gaussian =>
    have hfl : fluence_profile p r =
        peak_fluence_j_cm2 p * Real.exp (-2 * r ^ 2 / (w0_um p) ^ 2) := by
      rw [fluence_profile, hp]
    have hexp : Real.exp (-2 * r ^ 2 / (w0_um p) ^ 2) ≤ 1 := by
      rw [Real.exp_le_one_iff]
      apply div_nonpos_of_nonpos_of_nonneg _ (by positivity)
      nlinarith [sq_nonneg r]
    have hF0pos : 0 < peak_fluence_j_cm2 p := by
      by_contra hF0
      push_neg at hF0
      have : fluence_profile p r ≤ 0 := by
        rw [hfl]
        exact mul_nonpos_of_nonpos_of_nonneg hF0 (Real.exp_nonneg _)
      linarith
    have hF0 : peak_fluence_j_cm2 p > p.ablation_threshold_j_cm2 := by
      have : fluence_profile p r ≤ peak_fluence_j_cm2 p := by
        rw [hfl]
        nlinarith [Real.exp_pos (-2 * r ^ 2 / (w0_um p) ^ 2)]
      linarith
    have hL : 0 < Real.log
        (peak_fluence_j_cm2 p / p.ablation_threshold_j_cm2) :=
      Real.log_pos ((one_lt_div hFth).mpr hF0)
    have htop := top_diameter_gaussian p hp hFth hF0
    have hrsq : r ^ 2 < (w0_um p) ^ 2 *
        Real.log (peak_fluence_j_cm2 p / p.ablation_threshold_j_cm2) / 2 := by
      have hgt : p.ablation_threshold_j_cm2 / peak_fluence_j_cm2 p <
          Real.exp (-2 * r ^ 2 / (w0_um p) ^ 2) := by
        rw [div_lt_iff₀ hF0pos, mul_comm]
        rw [hfl] at hflu
        exact hflu
      have hlog := Real.log_lt_log (div_pos hFth hF0pos) hgt
      rw [Real.log_exp, Real.log_div hFth.ne' hF0pos.ne'] at hlog
      have hlogflip : Real.log
          (peak_fluence_j_cm2 p / p.ablation_threshold_j_cm2) =
          Real.log (peak_fluence_j_cm2 p) -
            Real.log p.ablation_threshold_j_cm2 :=
        Real.log_div hF0pos.ne' hFth.ne'
      have hw0sq : 0 < (w0_um p) ^ 2 := by positivity
      rw [lt_div_iff₀ hw0sq] at hlog
      rw [hlogflip]
      nlinarith [hlog]
    have habs : |r| ≤ Real.sqrt (2 * (w0_um p) ^ 2 *
        Real.log (peak_fluence_j_cm2 p / p.ablation_threshold_j_cm2)) / 2 := by
      have h4 : (Real.sqrt (2 * (w0_um p) ^ 2 *
          Real.log (peak_fluence_j_cm2 p / p.ablation_threshold_j_cm2)) / 2) ^ 2 =
          (w0_um p) ^ 2 *
            Real.log (peak_fluence_j_cm2 p / p.ablation_threshold_j_cm2) / 2 := by
        rw [div_pow, Real.sq_sqrt (by positivity)]
        ring
      have hrr : r ^ 2 ≤ (Real.sqrt (2 * (w0_um p) ^ 2 *
          Real.log (peak_fluence_j_cm2 p / p.ablation_threshold_j_cm2)) / 2) ^ 2 := by
        rw [h4]
        exact hrsq.le
      calc |r| = Real.sqrt (r ^ 2) := (Real.sqrt_sq_eq_abs r).symm
        _ ≤ _ := by
            rw [← Real.sqrt_sq (by positivity : (0:ℝ) ≤ Real.sqrt (2 * (w0_um p) ^ 2 * Real.log (peak_fluence_j_cm2 p / p.ablation_threshold_j_cm2)) / 2)]
            exact Real.sqrt_le_sqrt hrr
    rw [htop]
    exact habs
  case TopHat =>
    have hfl : fluence_profile p r =
        if |r| ≤ w0_um p then peak_fluence_j_cm2 p else 0 := by
      rw [fluence_profile, hp]
    rw [hfl] at hflu
    by_cases hin : |r| ≤ w0_um p
    · rw [if_pos hin] at hflu
      have htop : top_diameter_um p = p.beam_diameter_um := by
        rw [top_diameter_um, if_pos hany]
        simp only [hp]
        rw [if_pos hflu]
      rw [htop]
      rw [w0_um] at hin
      exact hin
    · rw [if_neg hin] at hflu
      linarith

/-- C2: for every forward-simulation input with positive threshold and
material thickness, the returned via geometry satisfies
`top_diameter_um ≥ bottom_diameter_um ≥ 0`, the taper angle lies in
`[0, 90]` degrees, and it equals 90 exactly when the bottom diameter is
zero. -/
theorem c2_via_geometry_invariants (p : SimParams)
    (hFth : 0 < p.ablation_threshold_j_cm2)
    (hT : 0 < p.material_thickness) :
    0 ≤ bottom_diameter_um p ∧
    bottom_diameter_um p ≤ top_diameter_um p ∧
    0 ≤ taper_angle_deg p ∧
    taper_angle_deg p ≤ 90 ∧
    (taper_angle_deg p = 90 ↔ bottom_diameter_um p = 0) := by
  have hbot0 : 0 ≤ bottom_diameter_um p := by
    rw [bottom_diameter_um]
    split
    case isTrue h =>
      have hd : 0 < p.beam_diameter_um := by
        obtain ⟨i, hi⟩ := h
        exact beam_pos_of_fluence_gt p hFth
          (through_above_threshold p hT hi).2
      have := r_um_mono p hd.le
        (Finset.min'_le _ _ (Finset.max'_mem (throughSet p) h))
      linarith
    case isFalse h => exact le_refl 0
  have hbtop : bottom_diameter_um p ≤ top_diameter_um p := by
    rw [bottom_diameter_um]
    split
    case isTrue h =>
      have hmax := through_radius_le p hFth hT
        (Finset.max'_mem (throughSet p) h)
      have hmin := through_radius_le p hFth hT
        (Finset.min'_mem (throughSet p) h)
      have h1 := le_abs_self (r_um p ((throughSet p).max' h))
      have h2 := neg_abs_le (r_um p ((throughSet p).min' h))
      linarith
    case isFalse h => exact top_nonneg p hFth
  by_cases hbpos : bottom_diameter_um p > 0
  · have hx : 0 ≤ ((top_diameter_um p - bottom_diameter_um p) / 2) /
        p.material_thickness := by
      apply div_nonneg _ hT.le
      linarith
    have harct : 0 ≤ Real.arctan (((top_diameter_um p -
        bottom_diameter_um p) / 2) / p.material_thickness) := by
      have := Real.arctan_strictMono.monotone hx
      rwa [Real.arctan_zero] at this
    have hlt : Real.arctan (((top_diameter_um p - bottom_diameter_um p) /
        2) / p.material_thickness) < π / 2 :=
      Real.arctan_lt_pi_div_two _
    have htap : taper_angle_deg p =
        Real.arctan (((top_diameter_um p - bottom_diameter_um p) / 2) /
          p.material_thickness) * (180 / π) := by
      rw [taper_angle_deg, if_pos hbpos]
    have hppos := Real.pi_pos
    have hlt90 : taper_angle_deg p < 90 := by
      rw [htap]
      calc Real.arctan (((top_diameter_um p - bottom_diameter_um p) / 2) /
              p.material_thickness) * (180 / π) < (π / 2) * (180 / π) := by
            apply mul_lt_mul_of_pos_right hlt
            positivity
        _ = 90 := by
            field_simp
            ring
    refine ⟨hbot0, hbtop, ?_, hlt90.le, ?_⟩
    · rw [htap]
      have h180 : (0 : ℝ) < 180 / π := by positivity
      exact mul_nonneg harct h180.le
    · constructor
      · intro h90
        exact absurd h90 (ne_of_lt hlt90)
      · intro hb0
        rw [hb0] at hbpos
        exact absurd hbpos (lt_irrefl 0)
  · have hb0 : bottom_diameter_um p = 0 := le_antisymm (not_lt.mp hbpos) hbot0
    have htap : taper_angle_deg p = 90 := by
      rw [taper_angle_deg, if_neg hbpos]
    exact ⟨hbot0, hbtop, by rw [htap]; norm_num, by rw [htap],
      ⟨fun _ => hb0, fun _ => htap⟩⟩

/-- C2, witness: the invariants at scenario 1. -/
theorem c2_via_geometry_invariants_witness :
    (0 : ℝ) < scenario1.ablation_threshold_j_cm2 ∧
    0 ≤ bottom_diameter_um scenario1 ∧
    bottom_diameter_um scenario1 ≤ top_diameter_um scenario1 ∧
    (taper_angle_deg scenario1 = 90 ↔ bottom_diameter_um scenario1 = 0) :=
  ⟨by norm_num [scenario1],
    (c2_via_geometry_invariants scenario1 (by norm_num [scenario1])
      (by norm_num [scenario1])).1,
    (c2_via_geometry_invariants scenario1 (by norm_num [scenario1])
      (by norm_num [scenario1])).2.1,
    (c2_via_geometry_invariants scenario1 (by norm_num [scenario1])
      (by norm_num [scenario1])).2.2.2.2⟩

/-- The per-pulse ablation depth is nonnegative for a positive
threshold and nonnegative penetration depth. -/
lemma depth_nonneg (p : SimParams) (hFth : 0 < p.ablation_threshold_j_cm2)
    (hα : 0 ≤ p.alpha_inv) (r : ℝ) : 0 ≤ depth_profile_um p r := by
  rw [depth_profile_um]
  split
  case isTrue h =>
    exact mul_nonneg hα (Real.log_nonneg ((one_le_div hFth).mpr h.le))
  case isFalse => exact le_refl 0

/-- The bottom diameter is nonnegative for positive threshold and
thickness. -/
lemma bottom_nonneg (p : SimParams)
    (hFth : 0 < p.ablation_threshold_j_cm2)
    (hT : 0 < p.material_thickness) : 0 ≤ bottom_diameter_um p := by
  rw [bottom_diameter_um]
  split
  case isTrue h =>
    have hd : 0 < p.beam_diameter_um := by
      obtain ⟨i, hi⟩ := h
      exact beam_pos_of_fluence_gt p hFth (through_above_threshold p hT hi).2
    have := r_um_mono p hd.le
      (Finset.min'_le _ _ (Finset.max'_mem (throughSet p) h))
    linarith
  case isFalse h => exact le_refl 0

set_option maxRecDepth 8000 in
/-- C4: holding the beam, pulse energy and material fixed, the bottom
diameter of the forward simulation is monotone non-decreasing in the
number of shots. -/
theorem c4_bottom_monotone_in_shots (p : SimParams) (N1 N2 : ℕ)
    (h12 : N1 ≤ N2) (hFth : 0 < p.ablation_threshold_j_cm2)
    (hα : 0 ≤ p.alpha_inv) (hT : 0 < p.material_thickness) :
    bottom_diameter_um {p with number_of_shots := N1} ≤
      bottom_diameter_um {p with number_of_shots := N2} := by
  have hsub : throughSet {p with number_of_shots := N1} ⊆
      throughSet {p with number_of_shots := N2} := by
    intro i hi
    rw [throughSet, Finset.mem_filter] at hi ⊢
    refine ⟨hi.1, ?_⟩
    have h2 := hi.2
    rw [total_depth_profile] at h2 ⊢
    have hd0 : (0 : ℝ) ≤
        depth_profile_um {p with number_of_shots := N1}
          (r_um {p with number_of_shots := N1} i) :=
      depth_nonneg _ hFth hα _
    have hN : ((N1 : ℝ)) ≤ (N2 : ℝ) := by exact_mod_cast h12
    calc p.material_thickness
        ≤ (N1 : ℝ) * depth_profile_um {p with number_of_shots := N1}
            (r_um {p with number_of_shots := N1} i) := h2
      _ ≤ (N2 : ℝ) * depth_profile_um {p with number_of_shots := N1}
            (r_um {p with number_of_shots := N1} i) :=
          mul_le_mul_of_nonneg_right hN hd0
      _ = (N2 : ℝ) * depth_profile_um {p with number_of_shots := N2}
            (r_um {p with number_of_shots := N2} i) := rfl
  by_cases h1 : (throughSet {p with number_of_shots := N1}).Nonempty
  · have h2 : (throughSet {p with number_of_shots := N2}).Nonempty :=
      h1.mono hsub
    rw [bottom_diameter_um, bottom_diameter_um, dif_pos h1, dif_pos h2]
    have hd : 0 < p.beam_diameter_um := by
      obtain ⟨i, hi⟩ := h1
      exact beam_pos_of_fluence_gt {p with number_of_shots := N1} hFth
        (through_above_threshold {p with number_of_shots := N1} hT hi).2
    have hmax : (throughSet {p with number_of_shots := N1}).max' h1 ≤
        (throughSet {p with number_of_shots := N2}).max' h2 :=
      Finset.max'_subset h1 hsub
    have hmin : (throughSet {p with number_of_shots := N2}).min' h2 ≤
        (throughSet {p with number_of_shots := N1}).min' h1 :=
      Finset.min'_subset h1 hsub
    have hA : r_um {p with number_of_shots := N1}
        ((throughSet {p with number_of_shots := N1}).max' h1) ≤
        r_um {p with number_of_shots := N2}
          ((throughSet {p with number_of_shots := N2}).max' h2) :=
      r_um_mono _ hd.le hmax
    have hB : r_um {p with number_of_shots := N2}
        ((throughSet {p with number_of_shots := N2}).min' h2) ≤
        r_um {p with number_of_shots := N1}
          ((throughSet {p with number_of_shots := N1}).min' h1) :=
      r_um_mono _ hd.le hmin
    linarith
  · rw [bottom_diameter_um, dif_neg h1]
    exact bottom_nonneg _ hFth hT

/-- C4, witness: monotonicity at scenario 1 between 50 and 75 shots. -/
theorem c4_bottom_monotone_in_shots_witness :
    (50 : ℕ) ≤ 75 ∧
    bottom_diameter_um {scenario1 with number_of_shots := 50} ≤
      bottom_diameter_um {scenario1 with number_of_shots := 75} :=
  ⟨by norm_num,
    c4_bottom_monotone_in_shots scenario1 50 75 (by norm_num)
      (by norm_num [scenario1]) (by norm_num [scenario1])
      (by norm_num [scenario1])⟩

/-- C10: whenever the through mask holds at exactly one sampled index,
the forward simulation reports a zero bottom diameter, the 90-degree
taper sentinel and an infinite taper ratio, even though the cumulative
depth at that index does reach the material thickness. -/
theorem c10_singleton_through (p : SimParams) (j : ℕ)
    (hsing : throughSet p = {j}) :
    total_depth_profile p (r_um p j) ≥ p.material_thickness ∧
    bottom_diameter_um p = 0 ∧
    taper_angle_deg p = 90 ∧
    taper_ratio p = ⊤ := by
  have hmem : j ∈ throughSet p := by
    rw [hsing]
    exact Finset.mem_singleton_self j
  have hpen : total_depth_profile p (r_um p j) ≥ p.material_thickness := by
    have h := hmem
    rw [throughSet, Finset.mem_filter] at h
    exact h.2
  have hne : (throughSet p).Nonempty := ⟨j, hmem⟩
  have hbot : bottom_diameter_um p = 0 := by
    rw [bottom_diameter_um, dif_pos hne]
    have hmax : (throughSet p).max' hne = j := by
      apply le_antisymm
      · apply Finset.max'_le
        intro y hy
        rw [hsing, Finset.mem_singleton] at hy
        exact hy.le
      · exact Finset.le_max' _ j hmem
    have hmin : (throughSet p).min' hne = j := by
      apply le_antisymm
      · exact Finset.min'_le _ j hmem
      · apply Finset.le_min'
        intro y hy
        rw [hsing, Finset.mem_singleton] at hy
        exact hy.ge
    rw [hmax, hmin, sub_self]
  have hnotpos : ¬ bottom_diameter_um p > 0 := by
    rw [hbot]
    exact lt_irrefl 0
  exact ⟨hpen, hbot, by rw [taper_angle_deg, if_neg hnotpos],
    by rw [taper_ratio, if_neg hnotpos]⟩

/-- The beam waist of the singleton-penetration parameter set. -/
lemma w0_singletonParams : w0_um singletonParams = 5 := by
  norm_num [w0_um, singletonParams]

/-- The peak fluence of the singleton-penetration parameter set is
`8/π` J/cm². -/
lemma peak_singletonParams : peak_fluence_j_cm2 singletonParams = 8 / π := by
  have hπ : (π : ℝ) ≠ 0 := Real.pi_ne_zero
  simp only [peak_fluence_j_cm2, singletonParams, w0_um, pulse_energy_j,
    UM_TO_CM, UJ_TO_J]
  rw [if_pos (by norm_num)]
  field_simp
  ring

/-- The fluence-to-threshold ratio of the singleton-penetration
parameter set at radius `r` is `e^1 * e^(-2r²/25)`. -/
lemma ratio_singletonParams (r : ℝ) :
    fluence_profile singletonParams r /
      singletonParams.ablation_threshold_j_cm2 =
      Real.exp 1 * Real.exp (-2 * r ^ 2 / 25) := by
  have hπ : (π : ℝ) ≠ 0 := Real.pi_ne_zero
  have he : Real.exp 1 ≠ 0 := (Real.exp_pos 1).ne'
  have hfl : fluence_profile singletonParams r =
      (8 / π) * Real.exp (-2 * r ^ 2 / 25) := by
    rw [fluence_profile]
    show peak_fluence_j_cm2 singletonParams *
        Real.exp (-2 * r ^ 2 / (w0_um singletonParams) ^ 2) = _
    rw [peak_singletonParams, w0_singletonParams]
    norm_num
  rw [hfl]
  show (8 / π) * Real.exp (-2 * r ^ 2 / 25) / (8 / (π * Real.exp 1)) = _
  field_simp
  ring

/-- The fluence of the singleton-penetration parameter set exceeds its
threshold exactly within the central grid sample: the ratio is
`exp(1 - 2r²/25)`, which exceeds 1 iff `r² < 12.5`. -/
lemma throughSet_singletonParams : throughSet singletonParams = {250} := by
  have hπ := Real.pi_pos
  have hFthpos : (0 : ℝ) < singletonParams.ablation_threshold_j_cm2 := by
    show (0 : ℝ) < 8 / (π * Real.exp 1)
    positivity
  ext i
  rw [throughSet, Finset.mem_filter, Finset.mem_singleton]
  constructor
  · rintro ⟨higrid, hthr⟩
    rw [total_depth_profile] at hthr
    have hshots : ((singletonParams.number_of_shots : ℝ)) = 1 := by
      norm_num [singletonParams]
    rw [hshots, one_mul] at hthr
    have hdepth1 : depth_profile_um singletonParams
        (r_um singletonParams i) ≥ 1 := by
      have hthick : singletonParams.material_thickness = 1 := rfl
      rw [hthick] at hthr
      exact hthr
    rw [depth_profile_um] at hdepth1
    by_cases hcond : fluence_profile singletonParams
        (r_um singletonParams i) > singletonParams.ablation_threshold_j_cm2
    · rw [if_pos hcond] at hdepth1
      have halpha : singletonParams.alpha_inv = 1 := rfl
      rw [halpha, one_mul, ratio_singletonParams, ← Real.exp_add,
        Real.log_exp] at hdepth1
      have hr2 : (r_um singletonParams i) ^ 2 ≤ 0 := by nlinarith
      have hr0 : r_um singletonParams i = 0 := by
        nlinarith [sq_nonneg (r_um singletonParams i)]
      have hcast : (i : ℝ) = 250 := by
        rw [r_um] at hr0
        simp only [singletonParams] at hr0
        nlinarith [hr0]
      exact_mod_cast hcast
    · rw [if_neg hcond] at hdepth1
      linarith
  · rintro rfl
    refine ⟨by simp [gridIdx], ?_⟩
    rw [total_depth_profile]
    have hshots : ((singletonParams.number_of_shots : ℝ)) = 1 := by
      norm_num [singletonParams]
    have hthick : singletonParams.material_thickness = 1 := rfl
    rw [hshots, one_mul, hthick]
    have hratio := ratio_singletonParams (r_um singletonParams 250)
    rw [r_um_mid] at hratio ⊢
    have hratio' : fluence_profile singletonParams 0 /
        singletonParams.ablation_threshold_j_cm2 = Real.exp 1 := by
      rw [hratio]
      norm_num
    have hcond : fluence_profile singletonParams 0 >
        singletonParams.ablation_threshold_j_cm2 := by
      have h1 : (1 : ℝ) < Real.exp 1 := by
        have := Real.exp_one_gt_d9
        linarith
      have h2 : fluence_profile singletonParams 0 =
          singletonParams.ablation_threshold_j_cm2 * Real.exp 1 := by
        field_simp at hratio'
        linarith [hratio']
      rw [h2]
      nlinarith
    rw [depth_profile_um, if_pos hcond]
    have halpha : singletonParams.alpha_inv = 1 := rfl
    rw [halpha, one_mul, hratio', Real.log_exp]

/-- C10, witness: the concrete singleton-penetration parameter set has
through mask `{250}`, zero bottom diameter, the 90-degree sentinel and
an infinite taper ratio. -/
theorem c10_singleton_through_witness :
    throughSet singletonParams = {250} ∧
    bottom_diameter_um singletonParams = 0 ∧
    taper_angle_deg singletonParams = 90 ∧
    taper_ratio singletonParams = ⊤ :=
  ⟨throughSet_singletonParams,
    (c10_singleton_through singletonParams 250
      throughSet_singletonParams).2.1,
    (c10_singleton_through singletonParams 250
      throughSet_singletonParams).2.2.1,
    (c10_singleton_through singletonParams 250
      throughSet_singletonParams).2.2.2⟩

end LaserDashboard
